import Mathlib

/-!
Shallow embedding of the supply-tracking dashboard
(`dashboard_acompanhamento_streamlit.py`): the ingestion normalizer
(`load_data`), the metrics calculator (`calculate_metrics`,
`safe_percentage`) and the export projection (`COLUNAS_DESEJADAS`,
`df_export`), together with theorems settling the specification claims.

Pandas DataFrames are embedded column-orientedly: a `Table` is a list of
named columns, each column a list of `Cell`s.  A `Cell` is either absent
(NaN / NaT / None), a string, a rational number (pandas numeric values),
or a calendar date (pandas Timestamp).
-/

set_option autoImplicit false

namespace Dashboard

/-- A calendar date (year, month, day), the payload of a pandas Timestamp. -/
structure Date where
  year : Nat
  month : Nat
  day : Nat
deriving DecidableEq, Repr

/-- One DataFrame cell: absent (NaN/NaT/None), a string, a numeric value
(modelled as a rational), or a date. -/
inductive Cell where
  | absent
  | str (s : String)
  | num (q : ℚ)
  | date (d : Date)
deriving DecidableEq, Repr

/-- Numeric value of digit characters, most significant first. -/
def digitsVal (l : List Char) : Nat :=
  l.foldl (fun a c => a * 10 + (c.toNat - 48)) 0

/-- Surrounding-whitespace removal on a character list (the `.strip()` that
pandas parsers apply to string fields). -/
def trimChars (l : List Char) : List Char :=
  ((l.dropWhile Char.isWhitespace).reverse.dropWhile Char.isWhitespace).reverse

/-- Split a character list on a separator character; n separators yield
n+1 (possibly empty) fields, like Python `str.split(sep)`. -/
def splitChar (sep : Char) : List Char → List (List Char)
  | [] => [[]]
  | c :: rest =>
    match splitChar sep rest with
    | h :: t => if c = sep then [] :: h :: t else (c :: h) :: t
    | [] => [[]]

/-- Model of Python/pandas numeric string parsing (`pd.to_numeric` on a
single string): optional surrounding whitespace, optional sign, decimal
digits with at most one decimal point.  Scientific notation and other
exotic float syntaxes are outside the model's scope; no claim exercises
them. -/
def parseNumeric (s : String) : Option ℚ :=
  let l := trimChars s.toList
  let signed : ℚ × List Char :=
    match l with
    | c :: rest =>
      if c = '-' then (-1, rest) else if c = '+' then (1, rest) else (1, l)
    | [] => (1, [])
  match splitChar '.' signed.2 with
  | [intPart] =>
    if intPart ≠ [] ∧ intPart.all Char.isDigit then
      some (signed.1 * (digitsVal intPart : ℚ))
    else none
  | [intPart, fracPart] =>
    if (intPart ≠ [] ∨ fracPart ≠ []) ∧ intPart.all Char.isDigit ∧
        fracPart.all Char.isDigit then
      some (signed.1 *
        ((digitsVal intPart : ℚ) + (digitsVal fracPart : ℚ) / (10 ^ fracPart.length)))
    else none
  | _ => none

/-- Gregorian leap-year test. -/
def isLeap (y : Nat) : Bool :=
  (y % 4 = 0 ∧ y % 100 ≠ 0) ∨ y % 400 = 0

/-- Number of days in a month of a given year. -/
def daysInMonth (y m : Nat) : Nat :=
  if m = 2 then (if isLeap y then 29 else 28)
  else if m = 4 ∨ m = 6 ∨ m = 9 ∨ m = 11 then 30
  else 31

/-- Build a date, validating month and day ranges (pandas rejects
out-of-range calendar components). -/
def mkDate (y m d : Nat) : Option Date :=
  if 1 ≤ m ∧ m ≤ 12 ∧ 1 ≤ d ∧ d ≤ daysInMonth y m then some ⟨y, m, d⟩ else none

/-- A date field: a nonempty all-digit character list. -/
def natField (l : List Char) : Option Nat :=
  if l ≠ [] ∧ l.all Char.isDigit then some (digitsVal l) else none

/-- Model of `pd.to_datetime(..., dayfirst=True)` on a single string,
restricted to the numeric formats the claims exercise: three `/`- or
`-`-separated numeric fields.  A four-digit first field is read as
year-month-day (ISO); otherwise the fields are read day-first
(day/month/year), falling back to month-first when the day-first reading
is not a valid calendar date — pandas treats `dayfirst` as a hint, not a
hard rule.  Anything else fails to parse (pandas: `NaT`). -/
def parseDateDayFirst (s : String) : Option Date :=
  let t := trimChars s.toList
  let parts := if t.contains '/' then splitChar '/' t else splitChar '-' t
  match parts with
  | [a, b, c] =>
    match natField a, natField b, natField c with
    | some x, some y, some z =>
      if a.length = 4 then mkDate x y z
      else if c.length = 4 then
        match mkDate z y x with
        | some d => some d
        | none => mkDate z x y
      else none
    | _, _, _ => none
  | _ => none

/-- Cell-level model of `pd.to_datetime(col, errors="coerce", dayfirst=True)`:
absent stays absent, an already-parsed date passes through unchanged, a
string parses to a date or becomes absent.  Numeric cells are modelled as
coerced to absent (the epoch-offset interpretation pandas would apply to a
numeric column never arises for the date columns of this program). -/
def to_datetime_cell : Cell → Cell
  | .absent => .absent
  | .date d => .date d
  | .str s =>
    match parseDateDayFirst s with
    | some d => .date d
    | none => .absent
  | .num _ => .absent

/-- Cell-level model of `pd.to_numeric(col, errors="coerce")`: absent stays
absent, a numeric value passes through, a string parses to a number or
becomes absent; date cells are modelled as coerced to absent (a datetime
column is never fed to `to_numeric` in this program). -/
def to_numeric_cell : Cell → Cell
  | .absent => .absent
  | .num q => .num q
  | .str s =>
    match parseNumeric s with
    | some q => .num q
    | none => .absent
  | .date _ => .absent

/-- Cell-level `fillna`: replace an absent cell by the given value. -/
def fillnaCell (v : Cell) (c : Cell) : Cell :=
  if c = .absent then v else c

/-- Numeric reading of a cell (`0` for anything non-numeric), used to sum a
column the way pandas `Series.sum` does after coercion and `fillna(0)`. -/
def cellQ : Cell → ℚ
  | .num q => q
  | _ => 0

/-- Truncation of a rational toward zero, the behaviour of Python `int()`
on a float. -/
def truncQ (q : ℚ) : Int :=
  q.num.tdiv (q.den : Int)

/-- A DataFrame, embedded column-orientedly: named columns in order, each a
list of cells. -/
abbrev Table := List (String × List Cell)

/-- Row count of a DataFrame (`len(df)`): the length of its columns, read
off the first column (`0` for a column-less frame). -/
def Table.nRows (t : Table) : Nat :=
  match t with
  | [] => 0
  | c :: _ => c.2.length

/-- Well-formedness: every column has the common row count.  Pandas
guarantees this by construction; the embedding states it where a proof
needs all columns to agree in length. -/
def Table.wf (t : Table) : Prop :=
  ∀ c ∈ t, c.2.length = Table.nRows t

instance (t : Table) : Decidable (Table.wf t) :=
  inferInstanceAs (Decidable (∀ c ∈ t, c.2.length = Table.nRows t))

/-- Column-presence test (`name in df.columns`). -/
def hasCol (t : Table) (name : String) : Bool :=
  t.any (fun c => c.1 = name)

/-- Read a column by name (`df[name]`): the first column bearing the name,
the empty list when absent. -/
def getCol : Table → String → List Cell
  | [], _ => []
  | c :: rest, name => if c.1 = name then c.2 else getCol rest name

/-- In-place column update (`df[name] = f(df[name])`): every column bearing
the name is transformed, the rest are untouched. -/
def setCol (t : Table) (name : String) (f : List Cell → List Cell) : Table :=
  t.map (fun c => if c.1 = name then (c.1, f c.2) else c)

/-- Column-level `fillna(v)`. -/
def fillnaCol (v : Cell) (l : List Cell) : List Cell :=
  l.map (fillnaCell v)

/-- Count of non-absent cells in a column (`col.notna().sum()`). -/
def countNotNa (l : List Cell) : Nat :=
  (l.filter (fun c => c ≠ Cell.absent)).length

/-- Object-dtype test for a column: a pandas column holds strings (dtype
`object`) exactly when at least one of its values is a string; all-numeric,
all-date, or all-absent columns carry a non-object dtype and are skipped by
`select_dtypes(include=["object"])`. -/
def isObjectCol (l : List Cell) : Bool :=
  l.any (fun c => match c with | .str _ => true | _ => false)

/-! ### CSV decoding (source lines 40–52)

Bytes are modelled as `List Nat` with values below 256; decoders reject
out-of-range entries.  A decoder returns the decoded code points, or `none`
where the Python codec would raise `UnicodeDecodeError`. -/

/-- Continuation-byte test for UTF-8. -/
def utf8Cont (b : Nat) : Bool :=
  0x80 ≤ b ∧ b ≤ 0xBF

/-- Strict UTF-8 decoder (the `utf-8` codec): rejects overlong forms,
surrogates and code points above U+10FFFF, exactly as Python's decoder
does. -/
def utf8Decode : List Nat → Option (List Nat)
  | [] => some []
  | b :: rest =>
    if b < 0x80 then
      (utf8Decode rest).map (fun l => b :: l)
    else if b < 0xC2 then none
    else if b ≤ 0xDF then
      match rest with
      | c :: r =>
        if utf8Cont c then
          (utf8Decode r).map (fun l => ((b - 0xC0) * 0x40 + (c - 0x80)) :: l)
        else none
      | [] => none
    else if b ≤ 0xEF then
      match rest with
      | c :: d :: r =>
        if (if b = 0xE0 then 0xA0 ≤ c ∧ c ≤ 0xBF
            else if b = 0xED then 0x80 ≤ c ∧ c ≤ 0x9F
            else utf8Cont c = true) ∧ utf8Cont d = true then
          (utf8Decode r).map
            (fun l => ((b - 0xE0) * 0x1000 + (c - 0x80) * 0x40 + (d - 0x80)) :: l)
        else none
      | _ => none
    else if b ≤ 0xF4 then
      match rest with
      | c :: d :: e :: r =>
        if (if b = 0xF0 then 0x90 ≤ c ∧ c ≤ 0xBF
            else if b = 0xF4 then 0x80 ≤ c ∧ c ≤ 0x8F
            else utf8Cont c = true) ∧ utf8Cont d = true ∧ utf8Cont e = true then
          (utf8Decode r).map
            (fun l =>
              ((b - 0xF0) * 0x40000 + (c - 0x80) * 0x1000 + (d - 0x80) * 0x40
                + (e - 0x80)) :: l)
        else none
      | _ => none
    else none

/-- Byte map of the `cp1252` codec: bytes 0x80–0x9F map through the
Windows-1252 table (five of them are undefined and raise), every other
byte below 256 maps to itself. -/
def cp1252Byte (b : Nat) : Option Nat :=
  if 256 ≤ b then none
  else if b < 0x80 ∨ 0xA0 ≤ b then some b
  else if b = 0x80 then some 0x20AC
  else if b = 0x82 then some 0x201A
  else if b = 0x83 then some 0x192
  else if b = 0x84 then some 0x201E
  else if b = 0x85 then some 0x2026
  else if b = 0x86 then some 0x2020
  else if b = 0x87 then some 0x2021
  else if b = 0x88 then some 0x2C6
  else if b = 0x89 then some 0x2030
  else if b = 0x8A then some 0x160
  else if b = 0x8B then some 0x2039
  else if b = 0x8C then some 0x152
  else if b = 0x8E then some 0x17D
  else if b = 0x91 then some 0x2018
  else if b = 0x92 then some 0x2019
  else if b = 0x93 then some 0x201C
  else if b = 0x94 then some 0x201D
  else if b = 0x95 then some 0x2022
  else if b = 0x96 then some 0x2013
  else if b = 0x97 then some 0x2014
  else if b = 0x98 then some 0x2DC
  else if b = 0x99 then some 0x2122
  else if b = 0x9A then some 0x161
  else if b = 0x9B then some 0x203A
  else if b = 0x9C then some 0x153
  else if b = 0x9E then some 0x17E
  else if b = 0x9F then some 0x178
  else none

/-- Decode a byte list under a named codec.  `latin-1` and `iso-8859-1`
are aliases of the same single-byte codec that accepts every byte. -/
def decodeBytes (encoding : String) (b : List Nat) : Option (List Nat) :=
  if encoding = "utf-8" then utf8Decode b
  else if encoding = "latin-1" ∨ encoding = "iso-8859-1" then
    if b.all (fun x => x < 256) then some b else none
  else if encoding = "cp1252" then b.mapM cp1252Byte
  else none

/-- Field of a parsed CSV row: an empty field is a missing value (pandas
`NaN`), anything else is kept as a string. -/
def parseField (l : List Char) : Cell :=
  if l = [] then .absent else .str (String.mk l)

/-- Pandas per-column dtype inference on `read_csv` output: when every
non-missing field of a column parses as a number the column is numeric
(values become numbers, empties stay `NaN`); otherwise the column keeps
its strings (dtype `object`). -/
def inferColumn (l : List Cell) : List Cell :=
  if l.all (fun c =>
      match c with
      | .absent => true
      | .str s => (parseNumeric s).isSome
      | _ => true) then
    l.map (fun c =>
      match c with
      | .str s =>
        match parseNumeric s with
        | some q => .num q
        | none => c
      | _ => c)
  else l

/-- Named columns built from header names and data rows (a short row is
padded with missing values, as pandas does), with dtype inference applied
per column. -/
def buildTable (names : List (List Char))
    (fields : List (List (List Char))) : Table :=
  (List.range names.length).map (fun i =>
    (String.mk (names.getD i []),
      inferColumn (fields.map (fun r => parseField (r.getD i [])))))

/-- Non-blank lines of decoded CSV text (pandas skips blank lines; a file
with no non-blank line raises `EmptyDataError`). -/
def csvLines (txt : List Nat) : List (List Char) :=
  (splitChar '\n' (txt.map Char.ofNat)).filter (fun l => l ≠ [])

/-- The table `pd.read_csv(..., sep=";")` builds from decoded text in the
regular case: the first non-blank line gives the column names, each
further line the `;`-separated fields of one row. -/
def csvToTable (txt : List Nat) : Table :=
  match csvLines txt with
  | [] => []
  | header :: rows =>
    buildTable (splitChar ';' header) (rows.map (fun r => splitChar ';' r))

/-- One attempted `pd.read_csv(uploaded_file, encoding=enc, sep=";")`.
The attempt raises (`none`) when the codec rejects the bytes
(`UnicodeDecodeError`), when no non-blank line remains (`EmptyDataError`,
covering the empty and the blank-line-only file), or when a data row is
wider than the header (`ParserError` on ragged rows) — with the exception
of pandas' implicit-index case: when every data row is exactly one field
wider than the header, the first field of each row is consumed as the row
index and the remaining fields fill the header's columns.  Every one of
these raises is caught by the bare `except` of source line 48. -/
def read_csv (encoding : String) (b : List Nat) : Option Table :=
  match decodeBytes encoding b with
  | none => none
  | some txt =>
    match csvLines txt with
    | [] => none
    | header :: rows =>
      let names := splitChar ';' header
      let fields := rows.map (fun r => splitChar ';' r)
      if fields.all (fun r => r.length ≤ names.length) then
        some (csvToTable txt)
      else if fields.all (fun r => r.length = names.length + 1) then
        some (buildTable names (fields.map (fun r => r.drop 1)))
      else none

/-- Ordered encoding list from source line 42. -/
def encodings : List String :=
  ["utf-8", "latin-1", "iso-8859-1", "cp1252"]

/-- The encoding fallback loop (source lines 43–50): attempt each encoding
in order and stop at the first that does not raise.  The `seek(0)` of the
source, which rewinds the upload buffer after a failed attempt, is
captured by every attempt reading the buffer from the start. -/
def tryEncodings : List String → List Nat → Option (String × Table)
  | [], _ => none
  | e :: rest, b =>
    match read_csv e b with
    | some df => some (e, df)
    | none => tryEncodings rest b

/-! ### Ingestion normalizer (source lines 34–79) -/

/-- An uploaded file: declared name and raw bytes. -/
structure UploadedFile where
  name : String
  bytes : List Nat

/-- A reported, user-visible error (`st.error`). -/
inductive UserError where
  | unsupportedFormat
  | loadError (msg : String)
deriving DecidableEq, Repr

/-- Message of the exception raised when every encoding attempt fails
(source line 52). -/
def csvDecodeFailMsg : String :=
  "Não foi possível decodificar o arquivo CSV com os encodings tentados."

/-- Extension extraction of source line 39:
`uploaded_file.name.split(".")[-1].lower()`. -/
def fileExtension (name : String) : String :=
  String.mk (((splitChar '.' name.toList).getLastD []).map Char.toLower)

/-- Date coercion of `load_data` (source lines 60–63): `DataPedido` and
`PrevisaoEntrega`, when present, are reparsed day-first in place. -/
def coerceDates (df : Table) : Table :=
  let df1 :=
    if hasCol df "DataPedido" then
      setCol df "DataPedido" (List.map to_datetime_cell)
    else df
  if hasCol df1 "PrevisaoEntrega" then
    setCol df1 "PrevisaoEntrega" (List.map to_datetime_cell)
  else df1

/-- Quantity coercion of `load_data` (source lines 66–70):
`QuantidadeProduto`, when present, is reparsed as numeric with failures
becoming missing, then missing values are filled with 0. -/
def coerceQuantidade (df : Table) : Table :=
  if hasCol df "QuantidadeProduto" then
    setCol (setCol df "QuantidadeProduto" (List.map to_numeric_cell))
      "QuantidadeProduto" (fillnaCol (.num 0))
  else df

/-- Text fill of `load_data` (source lines 73–74): every object-dtype
column has its missing values replaced by the placeholder string. -/
def fillTextCols (df : Table) : Table :=
  df.map (fun c =>
    if isObjectCol c.2 then (c.1, fillnaCol (.str "Não informado") c.2) else c)

/-- The data-treatment block of `load_data` (source lines 59–74): day-first
date coercion of `DataPedido` and `PrevisaoEntrega`, numeric coercion and
zero-fill of `QuantidadeProduto`, and placeholder fill of missing values in
the remaining text (object-dtype) columns. -/
def normalize (df : Table) : Table :=
  fillTextCols (coerceQuantidade (coerceDates df))

/-- The ingestion normalizer `load_data` (source lines 34–79).  Spreadsheet
parsing (`pd.read_excel`) is an external binary parser and is passed in as
a function returning either a table or the text of the raised exception.
The result pairs the produced table with the list of user-visible errors
reported on the way; every failure path is caught and yields an empty
table, mirroring the `try/except` of the source. -/
def load_data (read_excel : List Nat → Except String Table)
    (uploaded_file : Option UploadedFile) : Table × List UserError :=
  match uploaded_file with
  | none => ([], [])
  | some f =>
    let ext := fileExtension f.name
    if ext = "csv" then
      match tryEncodings encodings f.bytes with
      | some r => (normalize r.2, [])
      | none => ([], [.loadError csvDecodeFailMsg])
    else if ext = "xls" ∨ ext = "xlsx" then
      match read_excel f.bytes with
      | .ok df => (normalize df, [])
      | .error e => ([], [.loadError e])
    else ([], [.unsupportedFormat])

/-! ### Metrics calculator (source lines 82–125) -/

/-- Percentage with division-by-zero and NaN guard (source lines 82–85).
Operands are `Option ℚ` with `none` standing for NaN, the value
`pd.isna` tests for. -/
def safe_percentage (numerator denominator : Option ℚ) : ℚ :=
  if denominator = some 0 ∨ denominator.isNone ∨ numerator.isNone then 0
  else numerator.getD 0 / denominator.getD 0 * 100

/-- The metrics record returned by `calculate_metrics`. -/
structure Metrics where
  total_pedidos : Nat
  pedidos_entregues : Nat
  quantidade_total : Int
  pedidos_pendentes : Int
  taxa_entrega : ℚ
deriving DecidableEq, Repr

/-- The all-zero snapshot returned for an empty frame. -/
def zeroMetrics : Metrics :=
  { total_pedidos := 0, pedidos_entregues := 0, quantidade_total := 0,
    pedidos_pendentes := 0, taxa_entrega := 0 }

/-- The metrics calculator (source lines 88–125).  The source assigns
`df["Entregue"] = pd.to_datetime(df["Entregue"], errors="coerce",
dayfirst=True)` on its argument, a mutation of the caller's frame; the
embedding returns the post-call state of that frame as the second
component. -/
def calculate_metrics (df : Table) : Metrics × Table :=
  if Table.nRows df = 0 then (zeroMetrics, df)
  else
    let total_pedidos := Table.nRows df
    let step : Table × Nat :=
      if hasCol df "Entregue" then
        let df1 := setCol df "Entregue" (List.map to_datetime_cell)
        (df1, countNotNa (getCol df1 "Entregue"))
      else (df, 0)
    let df1 := step.1
    let pedidos_entregues := step.2
    let quantidade_total : ℚ :=
      if hasCol df1 "QuantidadeProduto" then
        ((fillnaCol (.num 0) ((getCol df1 "QuantidadeProduto").map to_numeric_cell)).map
          cellQ).sum
      else 0
    ({ total_pedidos := total_pedidos,
       pedidos_entregues := pedidos_entregues,
       quantidade_total := truncQ quantidade_total,
       pedidos_pendentes := (total_pedidos : Int) - (pedidos_entregues : Int),
       taxa_entrega :=
         safe_percentage (some (pedidos_entregues : ℚ)) (some (total_pedidos : ℚ)) },
     df1)

/-! ### Export projection (source lines 18–30 and 502–528) -/

/-- The fixed export column list (source lines 18–30). -/
def COLUNAS_DESEJADAS : List String :=
  ["NumeroPedido", "DataPedido", "ModeloProduto", "TipoProduto",
   "QuantidadeProduto", "OrdemServico", "NumeroSerie",
   "ApelidoDoEquipamento", "StatusAtual", "PrevisaoEntrega", "Entregue"]

/-- The export projection (source lines 506–508): keep the desired columns
that are present, in the declared order, values untouched. -/
def df_export (df : Table) : Table :=
  (COLUNAS_DESEJADAS.filter (fun col => hasCol df col)).map
    (fun col => (col, getCol df col))

/-- A cell that is a parsed date or absent — the shape the spec's
"valid date-or-absent" invariant asserts for the Entregue column. -/
def dateOrAbsent : Cell → Bool
  | .date _ => true
  | .absent => true
  | _ => false

/-- The UTF-8 (ASCII) bytes of the CSV file "Entregue\nabc": a one-column,
one-row upload whose Entregue value is the non-date string "abc". -/
def entregueCsvBytes : List Nat :=
  [69, 110, 116, 114, 101, 103, 117, 101, 10, 97, 98, 99]

/-- The UTF-8 (ASCII) bytes of the CSV file "QuantidadeProduto\n-3": a
one-column, one-row upload whose QuantidadeProduto value is "-3". -/
def qtyCsvBytes : List Nat :=
  [81, 117, 97, 110, 116, 105, 100, 97, 100, 101, 80, 114, 111, 100, 117,
   116, 111, 10, 45, 51]

/-- The frame state after `calculate_metrics` ran on a non-empty frame:
the Entregue column, when present, has been reparsed in place. -/
def metricsFrame (df : Table) : Table :=
  if hasCol df "Entregue" then setCol df "Entregue" (List.map to_datetime_cell)
  else df

/-- The delivered count of a non-empty frame. -/
def metricsDelivered (df : Table) : Nat :=
  if hasCol df "Entregue" then countNotNa (getCol (metricsFrame df) "Entregue")
  else 0

/-- The (untruncated) quantity sum of a non-empty frame. -/
def metricsQuantity (df : Table) : ℚ :=
  if hasCol (metricsFrame df) "QuantidadeProduto" then
    ((fillnaCol (.num 0)
        ((getCol (metricsFrame df) "QuantidadeProduto").map to_numeric_cell)).map
      cellQ).sum
  else 0

/-! ### Helper lemmas -/

theorem to_datetime_cell_idem (c : Cell) :
    to_datetime_cell (to_datetime_cell c) = to_datetime_cell c := by
  cases c with
  | str s =>
    simp only [to_datetime_cell]
    cases parseDateDayFirst s <;> rfl
  | _ => rfl

theorem dateOrAbsent_to_datetime_cell (c : Cell) :
    dateOrAbsent (to_datetime_cell c) = true := by
  cases c with
  | str s =>
    simp only [to_datetime_cell]
    cases parseDateDayFirst s <;> rfl
  | _ => rfl

theorem hasCol_setCol (t : Table) (n m : String) (f : List Cell → List Cell) :
    hasCol (setCol t n f) m = hasCol t m := by
  induction t with
  | nil => rfl
  | cons c rest ih =>
    simp only [setCol, hasCol, List.map_cons, List.any_cons] at *
    by_cases h : c.1 = n <;> simp [h, ← ih]

theorem names_setCol (t : Table) (n : String) (f : List Cell → List Cell) :
    (setCol t n f).map Prod.fst = t.map Prod.fst := by
  induction t with
  | nil => rfl
  | cons c rest ih =>
    simp only [setCol, List.map_cons] at *
    by_cases h : c.1 = n <;> simp [h, ih, setCol]

theorem setCol_of_hasCol_eq_false (t : Table) (n : String)
    (f : List Cell → List Cell) (h : hasCol t n = false) : setCol t n f = t := by
  induction t with
  | nil => rfl
  | cons c rest ih =>
    simp only [hasCol, List.any_cons, Bool.or_eq_false_iff] at h
    simp only [setCol, List.map_cons]
    rw [if_neg (by simpa using h.1)]
    have := ih (by simpa [hasCol] using h.2)
    simpa [setCol] using this

theorem getCol_setCol_self (t : Table) (n : String) (f : List Cell → List Cell)
    (h : hasCol t n = true) : getCol (setCol t n f) n = f (getCol t n) := by
  induction t with
  | nil => simp [hasCol] at h
  | cons c rest ih =>
    by_cases hc : c.1 = n
    · simp [setCol, getCol, hc]
    · simp only [hasCol, List.any_cons, Bool.or_eq_true, decide_eq_true_eq] at h
      rcases h with h | h
      · exact absurd h hc
      · simp only [setCol, List.map_cons, if_neg hc, getCol]
        simpa [setCol, getCol] using ih (by simpa [hasCol] using h)

theorem getCol_setCol_ne (t : Table) (n m : String) (f : List Cell → List Cell)
    (h : m ≠ n) : getCol (setCol t n f) m = getCol t m := by
  induction t with
  | nil => rfl
  | cons c rest ih =>
    by_cases hc : c.1 = n
    · have hcm : ¬ c.1 = m := by rw [hc]; exact fun hh => h hh.symm
      simp only [setCol, List.map_cons, if_pos hc, getCol, if_neg hcm]
      simpa [setCol, getCol] using ih
    · simp only [setCol, List.map_cons, if_neg hc, getCol]
      by_cases hm : c.1 = m
      · simp [hm]
      · rw [if_neg hm, if_neg hm]
        simpa [setCol, getCol] using ih

theorem getCol_of_hasCol_eq_false (t : Table) (n : String)
    (h : hasCol t n = false) : getCol t n = [] := by
  induction t with
  | nil => rfl
  | cons c rest ih =>
    simp only [hasCol, List.any_cons, Bool.or_eq_false_iff,
      decide_eq_false_iff_not] at h
    simp only [getCol, if_neg h.1]
    exact ih (by simpa [hasCol] using h.2)

theorem nRows_setCol_map (t : Table) (n : String) (g : Cell → Cell) :
    Table.nRows (setCol t n (List.map g)) = Table.nRows t := by
  cases t with
  | nil => rfl
  | cons c rest =>
    simp only [setCol, List.map_cons, Table.nRows]
    by_cases hc : c.1 = n <;> simp [hc, Table.nRows]

theorem countNotNa_le_length (l : List Cell) : countNotNa l ≤ l.length :=
  List.length_filter_le _ l

theorem getCol_mem (t : Table) (n : String) (h : hasCol t n = true) :
    ∃ c ∈ t, c.1 = n ∧ getCol t n = c.2 := by
  induction t with
  | nil => simp [hasCol] at h
  | cons c rest ih =>
    by_cases hc : c.1 = n
    · exact ⟨c, List.mem_cons_self c rest, hc, by simp [getCol, hc]⟩
    · simp only [hasCol, List.any_cons, Bool.or_eq_true, decide_eq_true_eq] at h
      rcases h with h | h
      · exact absurd h hc
      · obtain ⟨c0, hmem, hn, hval⟩ := ih (by simpa [hasCol] using h)
        exact ⟨c0, List.mem_cons_of_mem c hmem, hn, by simp [getCol, hc, hval]⟩

theorem getCol_length_of_wf (t : Table) (n : String) (hwf : t.wf)
    (h : hasCol t n = true) : (getCol t n).length = Table.nRows t := by
  obtain ⟨c, hmem, _, hval⟩ := getCol_mem t n h
  rw [hval]
  exact hwf c hmem

theorem countNotNa_map (f : Cell → Cell) (l : List Cell) :
    countNotNa (l.map f)
      = (l.filter (fun c => f c ≠ Cell.absent)).length := by
  simp only [countNotNa, List.filter_map, List.length_map]
  rfl

/-! ### Claim theorems -/

/-- C5: `safe_percentage` returns 0 whenever the denominator is 0 or either
operand is null/NaN, and `(numerator / denominator) * 100` otherwise; in
particular `safe_percentage 0 0 = 0`, `safe_percentage 5 0 = 0` and
`safe_percentage 3 6 = 50`. -/
theorem safe_percentage_spec :
    (∀ n d : Option ℚ, d = some 0 ∨ d = none ∨ n = none →
        safe_percentage n d = 0)
  ∧ (∀ n d : ℚ, d ≠ 0 → safe_percentage (some n) (some d) = n / d * 100)
  ∧ safe_percentage (some 0) (some 0) = 0
  ∧ safe_percentage (some 5) (some 0) = 0
  ∧ safe_percentage (some 3) (some 6) = 50 := by
  refine ⟨?_, ?_, ?_, ?_, ?_⟩
  · rintro n d (h | h | h) <;> simp [safe_percentage, h]
  · intro n d h
    simp [safe_percentage, h]
  · simp [safe_percentage]
  · simp [safe_percentage]
  · simp only [safe_percentage]
    norm_num

/-- Closed instances of C5: a NaN numerator yields 0, and a nonzero
denominator yields the plain percentage. -/
theorem safe_percentage_spec_witness :
    safe_percentage none (some 2) = 0
  ∧ safe_percentage (some 1) (some 2) = 1 / 2 * 100 :=
  ⟨safe_percentage_spec.1 none (some 2) (Or.inr (Or.inr rfl)),
   safe_percentage_spec.2.1 1 2 (by norm_num)⟩

/-- C4: for every Table (empty or not, with or without an Entregue column)
the snapshot satisfies pendentes = total − entregues, and equivalently
entregues + pendentes = total. -/
theorem metrics_pending_balance (df : Table) :
    ((calculate_metrics df).1.pedidos_pendentes
        = ((calculate_metrics df).1.total_pedidos : Int)
          - ((calculate_metrics df).1.pedidos_entregues : Int))
  ∧ (((calculate_metrics df).1.pedidos_entregues : Int)
        + (calculate_metrics df).1.pedidos_pendentes
        = ((calculate_metrics df).1.total_pedidos : Int)) := by
  unfold calculate_metrics
  split
  · exact ⟨rfl, by simp [zeroMetrics]⟩
  · exact ⟨rfl, by ring⟩

/-- C9: the export step projects any Table onto `COLUNAS_DESEJADAS`,
keeping exactly the declared columns present in the Table, in declared
order, with values unchanged; a Table missing `OrdemServico` exports all
other declared columns, silently omitting the missing one. -/
theorem export_projection_spec (df : Table) :
    ((df_export df).map Prod.fst
        = COLUNAS_DESEJADAS.filter (fun col => hasCol df col))
  ∧ (∀ p ∈ df_export df, p.2 = getCol df p.1)
  ∧ ((df_export
        [("NumeroPedido", [Cell.str "1"]), ("DataPedido", [Cell.absent]),
         ("ModeloProduto", [Cell.absent]), ("TipoProduto", [Cell.absent]),
         ("QuantidadeProduto", [Cell.absent]), ("NumeroSerie", [Cell.absent]),
         ("ApelidoDoEquipamento", [Cell.absent]), ("StatusAtual", [Cell.absent]),
         ("PrevisaoEntrega", [Cell.absent]), ("Entregue", [Cell.absent])]).map
          Prod.fst
      = ["NumeroPedido", "DataPedido", "ModeloProduto", "TipoProduto",
         "QuantidadeProduto", "NumeroSerie", "ApelidoDoEquipamento",
         "StatusAtual", "PrevisaoEntrega", "Entregue"]) := by
  refine ⟨?_, ?_, by decide⟩
  · simp [df_export, List.map_map, Function.comp_def]
  · intro p hp
    simp only [df_export, List.mem_map, List.mem_filter] at hp
    obtain ⟨col, _, hcol⟩ := hp
    rw [← hcol]

/-- Closed instance of C9: the exported `Entregue` column of a concrete
table carries its values unchanged. -/
theorem export_projection_spec_witness :
    ("Entregue", [Cell.absent, Cell.str "x"]).2
      = getCol [("Entregue", [Cell.absent, Cell.str "x"])]
          ("Entregue", [Cell.absent, Cell.str "x"]).1 :=
  (export_projection_spec [("Entregue", [Cell.absent, Cell.str "x"])]).2.1
    ("Entregue", [Cell.absent, Cell.str "x"]) (by decide)

/-- C8: `load_data` is a total function that never propagates a fault: no
upload yields an empty table with no error, an unrecognized extension
yields a reported unsupported-format error and an empty table, exhausting
every CSV encoding yields a reported decode error and an empty table, and
an exception inside spreadsheet parsing yields a reported error and an
empty table. -/
theorem load_data_error_handling :
    (∀ rex, load_data rex none = ([], []))
  ∧ (∀ rex f, fileExtension f.name ≠ "csv" → fileExtension f.name ≠ "xls" →
      fileExtension f.name ≠ "xlsx" →
      load_data rex (some f) = ([], [UserError.unsupportedFormat]))
  ∧ (∀ rex f, fileExtension f.name = "csv" →
      tryEncodings encodings f.bytes = none →
      load_data rex (some f) = ([], [UserError.loadError csvDecodeFailMsg]))
  ∧ (∀ rex f e, fileExtension f.name = "xls" ∨ fileExtension f.name = "xlsx" →
      rex f.bytes = Except.error e →
      load_data rex (some f) = ([], [UserError.loadError e])) := by
  refine ⟨fun rex => rfl, ?_, ?_, ?_⟩
  · intro rex f h1 h2 h3
    simp [load_data, h1, h2, h3]
  · intro rex f h1 h2
    simp [load_data, h1, h2]
  · intro rex f e h1 h2
    rcases h1 with h1 | h1 <;> simp [load_data, h1, h2]

/-- Closed instances of C8: a `.txt` upload is reported as unsupported with
an empty table, and an empty `.csv` upload exhausts all encodings and is
reported as a decode failure with an empty table. -/
theorem load_data_error_handling_witness :
    load_data (fun _ => Except.error "boom") (some ⟨"dados.txt", [65]⟩)
        = ([], [UserError.unsupportedFormat])
  ∧ load_data (fun _ => Except.error "boom") (some ⟨"dados.csv", []⟩)
        = ([], [UserError.loadError csvDecodeFailMsg])
  ∧ load_data (fun _ => Except.error "boom") (some ⟨"dados.xlsx", [1, 2]⟩)
        = ([], [UserError.loadError "boom"]) :=
  ⟨load_data_error_handling.2.1 _ _ (by decide) (by decide) (by decide),
   load_data_error_handling.2.2.1 _ _ (by decide) (by decide),
   load_data_error_handling.2.2.2 _ _ "boom" (Or.inr (by decide)) rfl⟩

theorem calculate_metrics_eq (df : Table) (h0 : Table.nRows df ≠ 0) :
    calculate_metrics df =
      ({ total_pedidos := Table.nRows df,
         pedidos_entregues := metricsDelivered df,
         quantidade_total := truncQ (metricsQuantity df),
         pedidos_pendentes :=
           (Table.nRows df : Int) - (metricsDelivered df : Int),
         taxa_entrega :=
           safe_percentage (some (metricsDelivered df : ℚ))
             (some (Table.nRows df : ℚ)) },
       metricsFrame df) := by
  unfold calculate_metrics
  rw [if_neg h0]
  by_cases hE : hasCol df "Entregue" <;>
    simp [metricsFrame, metricsDelivered, metricsQuantity, hE]

/-- C10: for every well-formed Table, delivered ≤ total, hence pending ≥ 0
and the delivery rate lies between 0 and 100. -/
theorem metrics_bounds (df : Table) (hwf : df.wf) :
    ((calculate_metrics df).1.pedidos_entregues
        ≤ (calculate_metrics df).1.total_pedidos)
  ∧ (0 ≤ (calculate_metrics df).1.pedidos_pendentes)
  ∧ (0 ≤ (calculate_metrics df).1.taxa_entrega)
  ∧ ((calculate_metrics df).1.taxa_entrega ≤ 100) := by
  by_cases h0 : Table.nRows df = 0
  · simp [calculate_metrics, h0, zeroMetrics]
  · rw [calculate_metrics_eq df h0]
    have hent : metricsDelivered df ≤ Table.nRows df := by
      unfold metricsDelivered
      by_cases hE : hasCol df "Entregue"
      · rw [if_pos hE]
        calc countNotNa (getCol (metricsFrame df) "Entregue")
            ≤ (getCol (metricsFrame df) "Entregue").length :=
              countNotNa_le_length _
          _ = (getCol df "Entregue").length := by
              unfold metricsFrame
              rw [if_pos hE, getCol_setCol_self df _ _ hE, List.length_map]
          _ = Table.nRows df := getCol_length_of_wf df _ hwf hE
      · rw [if_neg hE]
        exact Nat.zero_le _
    have htq : ((Table.nRows df : ℚ)) ≠ 0 := by
      exact_mod_cast h0
    have htaxa : safe_percentage (some (metricsDelivered df : ℚ))
        (some (Table.nRows df : ℚ))
        = (metricsDelivered df : ℚ) / (Table.nRows df : ℚ) * 100 := by
      simp [safe_percentage, htq]
    refine ⟨hent, ?_, ?_, ?_⟩
    · simp only []
      omega
    · rw [htaxa]
      positivity
    · simp only [htaxa]
      have hle : (metricsDelivered df : ℚ) / (Table.nRows df : ℚ) ≤ 1 := by
        rw [div_le_one (by positivity)]
        exact_mod_cast hent
      calc (metricsDelivered df : ℚ) / (Table.nRows df : ℚ) * 100
          ≤ 1 * 100 := by
            apply mul_le_mul_of_nonneg_right hle
            norm_num
        _ = 100 := by norm_num

/-- Closed instance of C10 at a concrete one-row table. -/
theorem metrics_bounds_witness :
    (0 : Int) ≤ (calculate_metrics [("Entregue", [Cell.str "abc"])]).1.pedidos_pendentes :=
  (metrics_bounds [("Entregue", [Cell.str "abc"])] (by decide)).2.1

/-- C6: on a non-empty Table, `calculate_metrics` counts as delivered
exactly the rows whose Entregue value parses as a day-first date (invalid
strings and absent values count as not delivered, without error), and
computes the quantity total by reparsing QuantidadeProduto as numeric with
failures contributing 0, truncating the sum to an integer; the quantities
`["10", "abc", "", None, "5.5"]` sum to 15.5 reported as 15, and the
Entregue values `["2024-03-01", "not a date", None]` yield delivered = 1. -/
theorem metrics_delivered_quantity_spec :
    (∀ df : Table, Table.nRows df ≠ 0 → hasCol df "Entregue" = true →
        (calculate_metrics df).1.pedidos_entregues
          = ((getCol df "Entregue").filter
              (fun c => to_datetime_cell c ≠ Cell.absent)).length)
  ∧ (∀ df : Table, Table.nRows df ≠ 0 → hasCol df "QuantidadeProduto" = true →
        (calculate_metrics df).1.quantidade_total
          = truncQ (((getCol df "QuantidadeProduto").map
              (fun c => cellQ (fillnaCell (Cell.num 0) (to_numeric_cell c)))).sum))
  ∧ ((calculate_metrics
        [("QuantidadeProduto",
          [Cell.str "10", Cell.str "abc", Cell.str "", Cell.absent,
           Cell.str "5.5"])]).1.quantidade_total = 15)
  ∧ ((calculate_metrics
        [("Entregue",
          [Cell.str "2024-03-01", Cell.str "not a date",
           Cell.absent])]).1.pedidos_entregues = 1) := by
  refine ⟨?_, ?_, ?_, by decide⟩
  · intro df h0 hE
    rw [calculate_metrics_eq df h0]
    simp only []
    unfold metricsDelivered metricsFrame
    rw [if_pos hE, if_pos hE, getCol_setCol_self df _ _ hE, countNotNa_map]
  · intro df h0 hQ
    rw [calculate_metrics_eq df h0]
    simp only []
    unfold metricsQuantity
    have hgc : getCol (metricsFrame df) "QuantidadeProduto"
        = getCol df "QuantidadeProduto" := by
      unfold metricsFrame
      by_cases hE : hasCol df "Entregue"
      · rw [if_pos hE, getCol_setCol_ne df _ _ _ (by decide)]
      · rw [if_neg hE]
    have hhc : hasCol (metricsFrame df) "QuantidadeProduto" = true := by
      unfold metricsFrame
      by_cases hE : hasCol df "Entregue"
      · rw [if_pos hE, hasCol_setCol]
        exact hQ
      · rw [if_neg hE]
        exact hQ
    rw [if_pos hhc, hgc]
    congr 1
    simp [fillnaCol, List.map_map, Function.comp_def]
  · rw [calculate_metrics_eq _ (by decide)]
    simp only []
    unfold metricsQuantity metricsFrame
    simp +decide [getCol, setCol, hasCol, fillnaCol, fillnaCell, cellQ,
      to_numeric_cell, parseNumeric, trimChars, splitChar, digitsVal, truncQ]
    norm_num
    decide

/-- Closed instance of C6 at a concrete table: one valid date, one invalid
string, one absent value give exactly one delivered row. -/
theorem metrics_delivered_quantity_spec_witness :
    (calculate_metrics
        [("Entregue",
          [Cell.str "2024-03-01", Cell.str "not a date", Cell.absent])]).1.pedidos_entregues
      = (([Cell.str "2024-03-01", Cell.str "not a date",
           Cell.absent].filter
            (fun c => to_datetime_cell c ≠ Cell.absent)).length) :=
  metrics_delivered_quantity_spec.1
    [("Entregue",
      [Cell.str "2024-03-01", Cell.str "not a date", Cell.absent])]
    (by decide) (by decide)

theorem hasCol_metricsFrame (df : Table) (n : String) :
    hasCol (metricsFrame df) n = hasCol df n := by
  unfold metricsFrame
  by_cases hE : hasCol df "Entregue"
  · rw [if_pos hE, hasCol_setCol]
  · rw [if_neg hE]

theorem nRows_metricsFrame (df : Table) :
    Table.nRows (metricsFrame df) = Table.nRows df := by
  unfold metricsFrame
  by_cases hE : hasCol df "Entregue"
  · rw [if_pos hE, nRows_setCol_map]
  · rw [if_neg hE]

theorem getCol_metricsFrame_ne (df : Table) (n : String) (h : n ≠ "Entregue") :
    getCol (metricsFrame df) n = getCol df n := by
  unfold metricsFrame
  by_cases hE : hasCol df "Entregue"
  · rw [if_pos hE, getCol_setCol_ne df _ _ _ h]
  · rw [if_neg hE]

theorem getCol_metricsFrame_entregue (df : Table)
    (hE : hasCol df "Entregue" = true) :
    getCol (metricsFrame df) "Entregue"
      = (getCol df "Entregue").map to_datetime_cell := by
  unfold metricsFrame
  rw [if_pos hE, getCol_setCol_self df _ _ hE]

theorem map_to_datetime_idem (l : List Cell) :
    ((l.map to_datetime_cell).map to_datetime_cell)
      = l.map to_datetime_cell := by
  rw [List.map_map]
  exact List.map_congr_left (fun c _ => to_datetime_cell_idem c)

theorem metricsDelivered_frame (df : Table) :
    metricsDelivered (metricsFrame df) = metricsDelivered df := by
  unfold metricsDelivered
  rw [hasCol_metricsFrame]
  by_cases hE : hasCol df "Entregue"
  · rw [if_pos hE, if_pos hE,
      getCol_metricsFrame_entregue (metricsFrame df) (by rw [hasCol_metricsFrame]; exact hE),
      getCol_metricsFrame_entregue df hE, map_to_datetime_idem]
  · rw [if_neg hE, if_neg hE]

theorem metricsQuantity_frame (df : Table) :
    metricsQuantity (metricsFrame df) = metricsQuantity df := by
  unfold metricsQuantity
  rw [hasCol_metricsFrame, hasCol_metricsFrame,
    getCol_metricsFrame_ne (metricsFrame df) _ (by decide),
    getCol_metricsFrame_ne df _ (by decide)]

/-- C2 counterexample: `calculate_metrics` is not side-effect-free — on a
table whose Entregue column holds the non-date string "abc", the call
rewrites that column in place (the string becomes absent), so the input
frame is not left unchanged. -/
theorem calculate_metrics_purity_counterexample :
    (calculate_metrics [("Entregue", [Cell.str "abc"])]).2
      ≠ [("Entregue", [Cell.str "abc"])] := by decide

/-- C2 amended: `calculate_metrics` is deterministic but it mutates its
argument: the returned frame keeps the same columns in the same order and
every column other than Entregue unchanged, while Entregue (when present
and the frame non-empty) is reparsed to dates in place; running
`calculate_metrics` again on the mutated frame returns the same snapshot
as the first call. -/
theorem calculate_metrics_mutation_amended (df : Table) :
    ((calculate_metrics (calculate_metrics df).2).1 = (calculate_metrics df).1)
  ∧ ((calculate_metrics df).2.map Prod.fst = df.map Prod.fst)
  ∧ (∀ name, name ≠ "Entregue" →
        getCol (calculate_metrics df).2 name = getCol df name) := by
  by_cases h0 : Table.nRows df = 0
  · have h2 : (calculate_metrics df) = (zeroMetrics, df) := by
      unfold calculate_metrics
      rw [if_pos h0]
    rw [h2]
    exact ⟨by rw [h2], rfl, fun name _ => rfl⟩
  · have h2 : (calculate_metrics df).2 = metricsFrame df := by
      rw [calculate_metrics_eq df h0]
    have h0f : Table.nRows (metricsFrame df) ≠ 0 := by
      rw [nRows_metricsFrame]
      exact h0
    refine ⟨?_, ?_, ?_⟩
    · rw [h2, calculate_metrics_eq df h0,
        calculate_metrics_eq (metricsFrame df) h0f]
      simp only [nRows_metricsFrame, metricsDelivered_frame,
        metricsQuantity_frame]
    · rw [h2]
      unfold metricsFrame
      by_cases hE : hasCol df "Entregue"
      · rw [if_pos hE, names_setCol]
      · rw [if_neg hE]
    · intro name hname
      rw [h2, getCol_metricsFrame_ne df name hname]

/-- Closed instance of C2 (amended): on a concrete mutated frame the second
run reproduces the first snapshot, and a column other than Entregue is
untouched. -/
theorem calculate_metrics_mutation_amended_witness :
    ((calculate_metrics
        (calculate_metrics [("Entregue", [Cell.str "abc"])]).2).1
      = (calculate_metrics [("Entregue", [Cell.str "abc"])]).1)
  ∧ (getCol (calculate_metrics [("Entregue", [Cell.str "abc"])]).2 "StatusAtual"
      = getCol [("Entregue", [Cell.str "abc"])] "StatusAtual") :=
  ⟨(calculate_metrics_mutation_amended [("Entregue", [Cell.str "abc"])]).1,
   (calculate_metrics_mutation_amended [("Entregue", [Cell.str "abc"])]).2.2
     "StatusAtual" (by decide)⟩

/-- C1 counterexample: `load_data` on a CSV upload whose Entregue column
holds the string "abc" returns that cell as the unparsed string "abc" —
neither a valid date nor absent — so the Entregue column is not
date-or-absent after ingestion. -/
theorem entregue_after_load_counterexample :
    ((load_data (fun _ => Except.error "")
        (some ⟨"dados.csv", entregueCsvBytes⟩)).1
      = [("Entregue", [Cell.str "abc"])])
  ∧ dateOrAbsent (Cell.str "abc") = false := by decide

/-- C1 amended: `load_data` leaves the Entregue column unparsed (cells stay
as uploaded; a missing value in an object column is even filled with the
placeholder string "Não informado", a non-date string); the date-or-absent
invariant holds only after `calculate_metrics`, which is where the code
reparses Entregue. -/
theorem entregue_normalization_amended :
    (∀ df : Table, df.wf →
        ∀ c ∈ getCol ((calculate_metrics df).2) "Entregue",
          dateOrAbsent c = true)
  ∧ (normalize [("Entregue", [Cell.str "abc", Cell.absent])]
      = [("Entregue", [Cell.str "abc", Cell.str "Não informado"])]) := by
  constructor
  · intro df hwf c hc
    by_cases h0 : Table.nRows df = 0
    · have h2 : (calculate_metrics df).2 = df := by
        unfold calculate_metrics
        rw [if_pos h0]
      rw [h2] at hc
      by_cases hE : hasCol df "Entregue"
      · have hlen : (getCol df "Entregue").length = 0 := by
          rw [getCol_length_of_wf df _ hwf hE, h0]
        rw [List.length_eq_zero.mp hlen] at hc
        exact absurd hc (List.not_mem_nil c)
      · rw [getCol_of_hasCol_eq_false df _ (by simpa using hE)] at hc
        exact absurd hc (List.not_mem_nil c)
    · have h2 : (calculate_metrics df).2 = metricsFrame df := by
        rw [calculate_metrics_eq df h0]
      rw [h2] at hc
      by_cases hE : hasCol df "Entregue"
      · rw [getCol_metricsFrame_entregue df hE] at hc
        obtain ⟨x, _, hx⟩ := List.mem_map.mp hc
        rw [← hx]
        exact dateOrAbsent_to_datetime_cell x
      · unfold metricsFrame at hc
        rw [if_neg hE,
          getCol_of_hasCol_eq_false df _ (by simpa using hE)] at hc
        exact absurd hc (List.not_mem_nil c)
  · decide

/-- Closed instance of C1 (amended) at a concrete table: after
`calculate_metrics` the Entregue cells are all date-or-absent. -/
theorem entregue_normalization_amended_witness :
    dateOrAbsent Cell.absent = true :=
  entregue_normalization_amended.1 [("Entregue", [Cell.str "abc"])]
    (by decide) Cell.absent (by decide)

/-- C3 counterexample: normalization does not make QuantidadeProduto
non-negative — a CSV upload whose QuantidadeProduto column holds "-3"
loads as the numeric value −3, which is negative. -/
theorem quantidade_nonneg_counterexample :
    (getCol (load_data (fun _ => Except.error "")
        (some ⟨"dados.csv", qtyCsvBytes⟩)).1 "QuantidadeProduto"
      = [Cell.num (-3)])
  ∧ ¬ ((0 : ℚ) ≤ -3) := by
  constructor
  · have h1 : utf8Decode qtyCsvBytes = some qtyCsvBytes := by decide
    have hlines : csvLines qtyCsvBytes
        = [['Q', 'u', 'a', 'n', 't', 'i', 'd', 'a', 'd', 'e', 'P', 'r',
            'o', 'd', 'u', 't', 'o'], ['-', '3']] := by decide
    have h2 : read_csv "utf-8" qtyCsvBytes
        = some (csvToTable qtyCsvBytes) := by
      simp +decide [read_csv, decodeBytes, h1, hlines, splitChar]
    have h3 : tryEncodings encodings qtyCsvBytes
        = some ("utf-8", csvToTable qtyCsvBytes) := by
      simp [encodings, tryEncodings, h2]
    have h5 : csvToTable qtyCsvBytes
        = [("QuantidadeProduto", [Cell.num (-3)])] := by
      simp only [csvToTable, hlines]
      simp +decide [buildTable, splitChar, parseField, inferColumn,
        parseNumeric, trimChars, digitsVal, List.range, List.range.loop]
    have h6 : (load_data (fun _ => Except.error "")
        (some ⟨"dados.csv", qtyCsvBytes⟩)).1
        = normalize (csvToTable qtyCsvBytes) := by
      simp [load_data, fileExtension, splitChar, h3]
    rw [h6, h5]
    simp [normalize, coerceDates, coerceQuantidade, fillTextCols, hasCol,
      setCol, getCol, fillnaCol, fillnaCell, isObjectCol, to_numeric_cell]
  · norm_num

theorem hasCol_coerceDates (df : Table) (n : String) :
    hasCol (coerceDates df) n = hasCol df n := by
  unfold coerceDates
  by_cases h1 : hasCol df "DataPedido" <;>
    by_cases h2 : hasCol (if hasCol df "DataPedido" then
        setCol df "DataPedido" (List.map to_datetime_cell) else df)
      "PrevisaoEntrega" <;>
    simp [h1, h2, hasCol_setCol] at * <;> simp [h1, h2, hasCol_setCol]

theorem getCol_coerceDates_ne (df : Table) (n : String)
    (h1 : n ≠ "DataPedido") (h2 : n ≠ "PrevisaoEntrega") :
    getCol (coerceDates df) n = getCol df n := by
  unfold coerceDates
  by_cases hd : hasCol df "DataPedido" <;>
    simp only [hd, if_pos, if_neg, Bool.false_eq_true, if_false, if_true] <;>
    split <;>
    simp [getCol_setCol_ne _ _ _ _ h1, getCol_setCol_ne _ _ _ _ h2]

theorem getCol_coerceQuantidade_self (df : Table)
    (hQ : hasCol df "QuantidadeProduto" = true) :
    getCol (coerceQuantidade df) "QuantidadeProduto"
      = fillnaCol (.num 0)
          ((getCol df "QuantidadeProduto").map to_numeric_cell) := by
  unfold coerceQuantidade
  rw [if_pos hQ,
    getCol_setCol_self _ _ _ (by rw [hasCol_setCol]; exact hQ),
    getCol_setCol_self _ _ _ hQ]

theorem getCol_fillTextCols (df : Table) (n : String) :
    getCol (fillTextCols df) n
      = (if isObjectCol (getCol df n) then
          fillnaCol (.str "Não informado") (getCol df n)
        else getCol df n) := by
  induction df with
  | nil => simp [fillTextCols, getCol, isObjectCol]
  | cons c rest ih =>
    by_cases hc : c.1 = n
    · by_cases ho : isObjectCol c.2 <;>
        simp [fillTextCols, getCol, hc, ho]
    · by_cases ho : isObjectCol c.2 <;>
        simpa [fillTextCols, getCol, hc, ho] using ih

theorem fillna_to_numeric_shape (c : Cell) :
    ∃ q : ℚ, fillnaCell (Cell.num 0) (to_numeric_cell c) = Cell.num q := by
  cases c with
  | absent => exact ⟨0, rfl⟩
  | num q => exact ⟨q, rfl⟩
  | date d => exact ⟨0, rfl⟩
  | str s =>
    simp only [to_numeric_cell]
    cases h : parseNumeric s with
    | none => exact ⟨0, rfl⟩
    | some q => exact ⟨q, rfl⟩

/-- C3 amended: after normalization every QuantidadeProduto cell is numeric
and never absent — it is the numeric reparse of the uploaded cell with
failures and missing values becoming 0 — but it is ≥ 0 only when no
uploaded cell reparses to a negative number; negative numeric input
survives normalization with its sign. -/
theorem quantidade_normalized_amended (df : Table)
    (hQ : hasCol df "QuantidadeProduto" = true) :
    (getCol (normalize df) "QuantidadeProduto"
        = (getCol df "QuantidadeProduto").map
            (fun c => fillnaCell (Cell.num 0) (to_numeric_cell c)))
  ∧ (∀ c ∈ getCol (normalize df) "QuantidadeProduto", ∃ q : ℚ, c = Cell.num q)
  ∧ ((∀ c ∈ getCol df "QuantidadeProduto",
        0 ≤ cellQ (fillnaCell (Cell.num 0) (to_numeric_cell c))) →
      ∀ c ∈ getCol (normalize df) "QuantidadeProduto",
        ∃ q : ℚ, c = Cell.num q ∧ 0 ≤ q) := by
  have hQd : hasCol (coerceDates df) "QuantidadeProduto" = true := by
    rw [hasCol_coerceDates]
    exact hQ
  have key : getCol (normalize df) "QuantidadeProduto"
      = (getCol df "QuantidadeProduto").map
          (fun c => fillnaCell (Cell.num 0) (to_numeric_cell c)) := by
    unfold normalize
    rw [getCol_fillTextCols, getCol_coerceQuantidade_self _ hQd,
      getCol_coerceDates_ne df _ (by decide) (by decide)]
    have hmm : fillnaCol (Cell.num 0)
        ((getCol df "QuantidadeProduto").map to_numeric_cell)
        = (getCol df "QuantidadeProduto").map
            (fun c => fillnaCell (Cell.num 0) (to_numeric_cell c)) := by
      simp [fillnaCol, List.map_map, Function.comp_def]
    rw [hmm]
    have hobj : isObjectCol ((getCol df "QuantidadeProduto").map
        (fun c => fillnaCell (Cell.num 0) (to_numeric_cell c))) = false := by
      simp only [isObjectCol, List.any_map, List.any_eq_false,
        Function.comp_apply]
      intro c _
      obtain ⟨q, hq⟩ := fillna_to_numeric_shape c
      simp [hq]
    rw [hobj]
    simp
  refine ⟨key, ?_, ?_⟩
  · intro c hc
    rw [key] at hc
    obtain ⟨x, _, hx⟩ := List.mem_map.mp hc
    exact hx ▸ fillna_to_numeric_shape x
  · intro hpos c hc
    rw [key] at hc
    obtain ⟨x, hxmem, hx⟩ := List.mem_map.mp hc
    obtain ⟨q, hq⟩ := fillna_to_numeric_shape x
    refine ⟨q, by rw [← hx, hq], ?_⟩
    have := hpos x hxmem
    rw [hq] at this
    simpa [cellQ] using this

/-- Closed instance of C3 (amended): on a concrete table the normalized
QuantidadeProduto column is the numeric reparse of its cells. -/
theorem quantidade_normalized_amended_witness :
    getCol (normalize [("QuantidadeProduto", [Cell.str "2", Cell.absent])])
        "QuantidadeProduto"
      = ([Cell.str "2", Cell.absent].map
          (fun c => fillnaCell (Cell.num 0) (to_numeric_cell c))) :=
  (quantidade_normalized_amended
    [("QuantidadeProduto", [Cell.str "2", Cell.absent])] (by decide)).1

end Dashboard
